import Mathlib

/-!
Verification of the Cryomech SMDP client core: the dictionary request codec,
the wire-frame version adapter, the correlation sequencer, the transaction
engine and the write-with-verification facade, embedded shallowly from
`src/packet.rs`, `src/api.rs` and `src/lib.rs`. The external `smdp` transport
crate (frame types and status parsing) and the serial port are out of scope of
the repository; they are modelled from the spec as explicit data and as an
environment oracle supplying each transaction's wire outcomes.
-/

namespace Cryomech

/-- Error taxonomy of `lib.rs` (`Io`, `InvalidFormat`, `Smdp`), each carrying
its message string. -/
inductive Error where
  | Io (msg : String)
  | InvalidFormat (msg : String)
  | Smdp (msg : String)
  deriving DecidableEq, Repr

/-- `CResult<T>` of `lib.rs`. -/
abbrev CResult (α : Type) := Except Error α

deriving instance DecidableEq for Except

/-- `RequestType` of `packet.rs`: dictionary read, or write carrying a `u32`
payload. -/
inductive RequestType where
  | Read
  | Write (d : Nat)
  deriving DecidableEq, Repr

/-- `SMDP_OPCODE` constant of `packet.rs`. -/
def SMDP_OPCODE : Nat := 0x80

/-- `u16::to_be_bytes`: the two big-endian bytes of a 16-bit value. -/
def u16ToBeBytes (h : Nat) : List Nat := [h / 256 % 256, h % 256]

/-- `u32::to_be_bytes`: the four big-endian bytes of a 32-bit value. -/
def u32ToBeBytes (d : Nat) : List Nat :=
  [d / 16777216 % 256, d / 65536 % 256, d / 256 % 256, d % 256]

/-- `u32::from_be_bytes`: the value of four big-endian bytes. -/
def u32FromBeBytes (a b c d : Nat) : Nat := ((a * 256 + b) * 256 + c) * 256 + d

/-- `CPacketSmdp` of `packet.rs`: Cryomech-specific wrapper around the SMDP
payload: device address, payload bytes, optional serial (correlation) number. -/
structure CPacketSmdp where
  addr : Nat
  data : List Nat
  srlno : Option Nat
  deriving DecidableEq, Repr

namespace CPacketSmdp

/-- `CPacketSmdp::new`: builds the dictionary request payload
`[kindByte, hashHi, hashLo, subIndex]`, with the four big-endian write-data
bytes appended for a write; the kind byte is `0x63` for a read and `0x61` for
a write. -/
def new (addr : Nat) (srlno : Option Nat) (req_type : RequestType)
    (hashval : Nat) (array_idx : Nat) : CPacketSmdp :=
  let p : Nat × Option Nat :=
    match req_type with
    | .Read => (0x63, none)
    | .Write d => (0x61, some d)
  let data :=
    [p.1] ++ u16ToBeBytes hashval ++ [array_idx] ++
      (match p.2 with
       | none => []
       | some d => u32ToBeBytes d)
  ⟨addr, data, srlno⟩

/-- `CPacketSmdp::extract_data`: a well-formed response payload has exactly
8 bytes; the trailing 4 bytes are decoded as a big-endian `u32`; any other
length is an `InvalidFormat` error. -/
def extract_data (self : CPacketSmdp) : CResult Nat :=
  if self.data.length = 8 then
    match self.data.drop 4 with
    | [a, b, c, d] => .ok (u32FromBeBytes a b c d)
    | _ => .error (.InvalidFormat "Index into response data invalid.")
  else
    .error (.InvalidFormat "Response is malformed or is not a response packet.")

/-- `CPacketSmdp::set_srlno`. -/
def set_srlno (self : CPacketSmdp) (srlno : Nat) : CPacketSmdp :=
  { self with srlno := some srlno }

end CPacketSmdp

/-- Modelled from the spec: the Unkeyed wire-frame shape (`smdp::SmdpPacketV2`,
an external crate): address, opcode, payload bytes, with no correlation field.
Its constructor and accessors are plain record operations, as exercised by the
repository's own tests in `packet.rs`. -/
structure SmdpPacketV2 where
  addr : Nat
  cmd_rsp : Nat
  data : List Nat
  deriving DecidableEq, Repr

/-- Modelled from the spec: the Keyed wire-frame shape (`smdp::SmdpPacketV3`,
an external crate): address, opcode, correlation byte (`srlno`), payload
bytes. -/
structure SmdpPacketV3 where
  addr : Nat
  cmd_rsp : Nat
  srlno : Nat
  data : List Nat
  deriving DecidableEq, Repr

/-- `impl From<CPacketSmdp> for SmdpPacketV2` of `packet.rs`: always succeeds,
dropping any serial number. -/
def toSmdpV2 (cpkt : CPacketSmdp) : SmdpPacketV2 :=
  ⟨cpkt.addr, SMDP_OPCODE, cpkt.data⟩

/-- `impl TryFrom<CPacketSmdp> for SmdpPacketV3` of `packet.rs`: fails with an
`InvalidFormat` error when the packet has no serial number. -/
def toSmdpV3 (cpkt : CPacketSmdp) : CResult SmdpPacketV3 :=
  match cpkt.srlno with
  | some srlno => .ok ⟨cpkt.addr, SMDP_OPCODE, srlno, cpkt.data⟩
  | none => .error (.InvalidFormat "Packet has no serial number.")

/-- `impl From<SmdpPacketV2> for CPacketSmdp` of `packet.rs`. -/
def ofSmdpV2 (pkt : SmdpPacketV2) : CPacketSmdp :=
  ⟨pkt.addr, pkt.data, none⟩

/-- `impl From<SmdpPacketV3> for CPacketSmdp` of `packet.rs`. -/
def ofSmdpV3 (pkt : SmdpPacketV3) : CPacketSmdp :=
  ⟨pkt.addr, pkt.data, some pkt.srlno⟩

/-- Modelled from the spec: the response status code
(`smdp::format::ResponseCode`, an external crate) supplied by the transport
frame parser: `Ok`, or a non-OK status identified by its debug name (the name
interpolated by `format!("RSP not OK: {:?}", other)` in `api.rs`). -/
inductive ResponseCode where
  | Ok
  | NotOk (name : String)
  deriving DecidableEq, Repr

/-- `SmdpVersion` of `api.rs`: V2 frames have no SRLNO field; V3 and above
have one. -/
inductive SmdpVersion where
  | V2
  | V3Plus
  deriving DecidableEq, Repr

/-- The session state of `CryomechApiSmdp` relevant to the transaction engine:
device address, protocol version, and the mutable correlation counter. The
transport handle, com port and timeout are held by the environment oracle. -/
structure ApiState where
  dev_addr : Nat
  version : SmdpVersion
  srlno : Nat
  deriving DecidableEq, Repr

/-- `CryomechApiSmdp::new` (the session fields the core uses): a fresh session
starts with correlation counter `0x17`. -/
def ApiState.initial (dev_addr : Nat) (version : SmdpVersion) : ApiState :=
  ⟨dev_addr, version, 0x17⟩

/-- `CryomechApiSmdp::increment_srlno`: returns the current counter value for
use, then advances it by one, wrapping from `0xFF` to `0x11`. -/
def increment_srlno (s : ApiState) : Nat × ApiState :=
  let ret := s.srlno
  if s.srlno = 255 then (ret, { s with srlno := 0x11 })
  else (ret, { s with srlno := s.srlno + 1 })

/-- The states a session can be in: the freshly constructed session, closed
under running the correlation sequencer. -/
inductive Reachable (a : Nat) (v : SmdpVersion) : ApiState → Prop where
  | init : Reachable a v (ApiState.initial a v)
  | step (s : ApiState) : Reachable a v s → Reachable a v (increment_srlno s).2

/-- A wire frame written to or read from the transport: one of the two
version shapes. -/
inductive Frame where
  | v2 (f : SmdpPacketV2)
  | v3 (f : SmdpPacketV3)
  deriving DecidableEq, Repr

/-- The payload bytes of a wire frame. -/
def Frame.dataOf : Frame → List Nat
  | .v2 f => f.data
  | .v3 f => f.data

/-- The address byte of a wire frame. -/
def Frame.addrOf : Frame → Nat
  | .v2 f => f.addr
  | .v3 f => f.addr

/-- The environment oracle for one transaction: the outcomes the external
`smdp` transport reports for the single `write_once`, the single `poll_once`,
and the status decode `rsp()` of the received frame. Only the fields of the
session's active version are consulted. -/
structure WireEnv where
  writeRes : CResult Unit
  pollV2 : CResult SmdpPacketV2
  rspV2 : Except String ResponseCode
  pollV3 : CResult SmdpPacketV3
  rspV3 : Except String ResponseCode
  deriving Repr

/-- The outcome of one `comm_handler` call: the returned value, the session
state after the call, and the request frame passed to `write_once` (absent
only on the unreachable missing-serial-number branch guarded by `expect` in
the source). -/
structure CommOut where
  result : CResult (Option Nat)
  state : ApiState
  sent : Option Frame
  deriving Repr

/-- `CryomechApiSmdp::comm_handler` of `api.rs`: builds the dictionary request,
adapts it to the active version's frame shape (drawing a correlation number
first on `V3Plus`), writes it, polls one response, checks the correlation on
`V3Plus`, checks the response status, and decodes the payload for reads. -/
def comm_handler (s : ApiState) (env : WireEnv) (req_type : RequestType)
    (hashval : Nat) (array_idx : Nat) : CommOut :=
  let is_read : Bool := match req_type with | .Read => true | .Write _ => false
  let cpkt := CPacketSmdp.new s.dev_addr none req_type hashval array_idx
  match s.version with
  | .V2 =>
    let req_smdp := toSmdpV2 cpkt
    let sent := some (Frame.v2 req_smdp)
    match env.writeRes with
    | .error e => ⟨.error e, s, sent⟩
    | .ok _ =>
      match env.pollV2 with
      | .error e => ⟨.error e, s, sent⟩
      | .ok resp_smdp =>
        match env.rspV2 with
        | .error e => ⟨.error (.Smdp e), s, sent⟩
        | .ok .Ok =>
          let resp_cpkt := ofSmdpV2 resp_smdp
          ⟨if is_read then resp_cpkt.extract_data.map some else .ok none, s, sent⟩
        | .ok (.NotOk name) =>
          ⟨.error (.InvalidFormat ("RSP not OK: " ++ name)), s, sent⟩
  | .V3Plus =>
    let r := increment_srlno s
    let s1 := r.2
    match toSmdpV3 (cpkt.set_srlno r.1) with
    | .error e => ⟨.error e, s1, none⟩
    | .ok req_smdp =>
      let sent := some (Frame.v3 req_smdp)
      match env.writeRes with
      | .error e => ⟨.error e, s1, sent⟩
      | .ok _ =>
        match env.pollV3 with
        | .error e => ⟨.error e, s1, sent⟩
        | .ok resp_smdp =>
          if resp_smdp.srlno ≠ req_smdp.srlno then
            ⟨.error (.InvalidFormat "SRLNO mismatch"), s1, sent⟩
          else
            match env.rspV3 with
            | .error e => ⟨.error (.Smdp e), s1, sent⟩
            | .ok .Ok =>
              let resp_cpkt := ofSmdpV3 resp_smdp
              ⟨if is_read then resp_cpkt.extract_data.map some else .ok none, s1, sent⟩
            | .ok (.NotOk name) =>
              ⟨.error (.InvalidFormat ("RSP not OK: " ++ name)), s1, sent⟩

/-- The outcome of a boolean facade accessor. -/
structure BoolOut where
  result : CResult Bool
  state : ApiState
  sent : Option Frame
  deriving Repr

/-- `CryomechApiSmdp::comp_on` of `api.rs`: reads register `0x5F95`
sub-index `0x00` and compares the decoded value to 1. -/
def comp_on (s : ApiState) (env : WireEnv) : BoolOut :=
  let r := comm_handler s env .Read 0x5F95 0x00
  match r.result with
  | .error e => ⟨.error e, r.state, r.sent⟩
  | .ok none =>
    ⟨.error (.InvalidFormat "Expected data in response, got none."), r.state, r.sent⟩
  | .ok (some d) => ⟨.ok (d == 1), r.state, r.sent⟩

/-- One observable step of a facade operation: a frame handed to the
transport, or a thread sleep of the given number of seconds. -/
inductive Event where
  | sentFrame (f : Option Frame)
  | sleepSecs (n : Nat)
  deriving Repr

/-- The outcome of `start_compressor`: the returned value, the final session
state and the ordered observable events. -/
structure StartOut where
  result : CResult Bool
  state : ApiState
  events : List Event
  deriving Repr

/-- `CryomechApiSmdp::start_compressor` of `api.rs`: writes `0x0001` to
register `0xD501` sub-index `0x00`; on success sleeps one second and
confirms via `comp_on`; any error propagates. `env1` is the wire environment
of the write transaction, `env2` that of the confirmation read. -/
def start_compressor (s : ApiState) (env1 env2 : WireEnv) : StartOut :=
  let r1 := comm_handler s env1 (.Write 0x0001) 0xD501 0x00
  match r1.result with
  | .error e => ⟨.error e, r1.state, [.sentFrame r1.sent]⟩
  | .ok _ =>
    let r2 := comp_on r1.state env2
    ⟨r2.result, r2.state, [.sentFrame r1.sent, .sleepSecs 1, .sentFrame r2.sent]⟩

/-! ## Helper lemmas -/

/-- Every reachable session state keeps its correlation counter in the closed
range `[0x11, 0xFF]`. -/
theorem reachable_srlno_bounds {a : Nat} {v : SmdpVersion} {s : ApiState}
    (h : Reachable a v s) : 0x11 ≤ s.srlno ∧ s.srlno ≤ 255 := by
  induction h with
  | init =>
    show 0x11 ≤ 0x17 ∧ (0x17 : Nat) ≤ 255
    decide
  | step s hs ih =>
    unfold increment_srlno
    split
    · show 0x11 ≤ 0x11 ∧ (0x11 : Nat) ≤ 255
      decide
    · show 0x11 ≤ s.srlno + 1 ∧ s.srlno + 1 ≤ 255
      omega

/-- A list of length 8 is its first eight elements. -/
theorem list_length_eight_eq (l : List Nat) (h : l.length = 8) :
    l = [l.getD 0 0, l.getD 1 0, l.getD 2 0, l.getD 3 0,
         l.getD 4 0, l.getD 5 0, l.getD 6 0, l.getD 7 0] := by
  rcases l with _ | ⟨a, _ | ⟨b, _ | ⟨c, _ | ⟨d, _ | ⟨e, _ | ⟨f, _ | ⟨g, _ | ⟨i, l⟩⟩⟩⟩⟩⟩⟩⟩ <;>
    simp_all

/-- On an 8-byte payload, `extract_data` returns the big-endian value of
bytes 4..7. -/
theorem extract_data_of_length_eight (p : CPacketSmdp) (h : p.data.length = 8) :
    p.extract_data =
      .ok (u32FromBeBytes (p.data.getD 4 0) (p.data.getD 5 0)
        (p.data.getD 6 0) (p.data.getD 7 0)) := by
  obtain ⟨pa, pd, ps⟩ := p
  rcases pd with _ | ⟨a, _ | ⟨b, _ | ⟨c, _ | ⟨d, _ | ⟨e, _ | ⟨f, _ | ⟨g, _ | ⟨i, l⟩⟩⟩⟩⟩⟩⟩⟩ <;>
    simp_all [CPacketSmdp.extract_data]

/-- The sequencer returns the counter value it found. -/
theorem increment_srlno_fst (s : ApiState) : (increment_srlno s).1 = s.srlno := by
  unfold increment_srlno
  split <;> rfl

/-- The sequencer touches only the counter field. -/
theorem increment_srlno_frame (s : ApiState) :
    (increment_srlno s).2.dev_addr = s.dev_addr ∧
    (increment_srlno s).2.version = s.version := by
  unfold increment_srlno
  split <;> exact ⟨rfl, rfl⟩

/-- Every `comm_handler` call hands the transport exactly one request frame,
carrying the codec payload for the requested register and the session's device
address. -/
theorem comm_handler_sent (s : ApiState) (env : WireEnv) (req_type : RequestType)
    (hashval array_idx : Nat) :
    ∃ f, (comm_handler s env req_type hashval array_idx).sent = some f ∧
      f.dataOf = (CPacketSmdp.new s.dev_addr none req_type hashval array_idx).data ∧
      f.addrOf = s.dev_addr := by
  obtain ⟨da, ver, sn⟩ := s
  rcases env with ⟨w, p2, r2, p3, r3⟩
  cases ver with
  | V2 =>
    rcases w with e | u
    · exact ⟨_, rfl, rfl, rfl⟩
    · rcases p2 with e | resp
      · exact ⟨_, rfl, rfl, rfl⟩
      · rcases r2 with e | rc
        · exact ⟨_, rfl, rfl, rfl⟩
        · rcases rc with _ | nm
          · exact ⟨_, rfl, rfl, rfl⟩
          · exact ⟨_, rfl, rfl, rfl⟩
  | V3Plus =>
    simp only [comm_handler, CPacketSmdp.set_srlno, toSmdpV3]
    rcases w with e | u
    · exact ⟨_, rfl, rfl, rfl⟩
    · rcases p3 with e | resp
      · exact ⟨_, rfl, rfl, rfl⟩
      · by_cases hm : resp.srlno = (increment_srlno ⟨da, .V3Plus, sn⟩).1
        · simp only [hm, ne_eq, eq_self_iff_true, not_true_eq_false, ite_false, if_false]
          rcases r3 with e | rc
          · exact ⟨_, rfl, rfl, rfl⟩
          · rcases rc with _ | nm
            · exact ⟨_, rfl, rfl, rfl⟩
            · exact ⟨_, rfl, rfl, rfl⟩
        · simp only [ne_eq, hm, not_false_eq_true, ite_true, if_true]
          exact ⟨_, rfl, rfl, rfl⟩

/-- On a V2 session whose write and poll both succeed, `comm_handler` returns
the outcome dictated by the decoded status alone. -/
theorem comm_handler_v2_result (da sn : Nat) (env : WireEnv)
    (req_type : RequestType) (hashval array_idx : Nat) (resp : SmdpPacketV2)
    (hw : env.writeRes = .ok ()) (hp : env.pollV2 = .ok resp) :
    (comm_handler ⟨da, .V2, sn⟩ env req_type hashval array_idx).result =
      match env.rspV2 with
      | .error e => .error (.Smdp e)
      | .ok .Ok =>
        (match req_type with
         | .Read => (ofSmdpV2 resp).extract_data.map some
         | .Write _ => .ok none)
      | .ok (.NotOk name) => .error (.InvalidFormat ("RSP not OK: " ++ name)) := by
  rcases env with ⟨w, p2, r2, p3, r3⟩
  replace hw : w = .ok () := hw
  replace hp : p2 = .ok resp := hp
  subst hw hp
  rcases r2 with e | rc
  · rfl
  · rcases rc with _ | nm
    · rcases req_type with _ | d <;> rfl
    · rfl

/-- On a V3Plus session whose write and poll both succeed, `comm_handler`
checks the received correlation against the drawn one first, then the decoded
status. -/
theorem comm_handler_v3_result (da sn : Nat) (env : WireEnv)
    (req_type : RequestType) (hashval array_idx : Nat) (resp : SmdpPacketV3)
    (hw : env.writeRes = .ok ()) (hp : env.pollV3 = .ok resp) :
    (comm_handler ⟨da, .V3Plus, sn⟩ env req_type hashval array_idx).result =
      if resp.srlno ≠ sn then .error (.InvalidFormat "SRLNO mismatch")
      else
        match env.rspV3 with
        | .error e => .error (.Smdp e)
        | .ok .Ok =>
          (match req_type with
           | .Read => (ofSmdpV3 resp).extract_data.map some
           | .Write _ => .ok none)
        | .ok (.NotOk name) => .error (.InvalidFormat ("RSP not OK: " ++ name)) := by
  rcases env with ⟨w, p2, r2, p3, r3⟩
  replace hw : w = .ok () := hw
  replace hp : p3 = .ok resp := hp
  subst hw hp
  simp only [comm_handler, CPacketSmdp.set_srlno, toSmdpV3, increment_srlno_fst]
  by_cases hm : resp.srlno = sn
  · simp only [hm, ne_eq, eq_self_iff_true, not_true_eq_false, ite_false, if_false]
    rcases r3 with e | rc
    · rfl
    · rcases rc with _ | nm
      · rcases req_type with _ | d <;> rfl
      · rfl
  · simp only [ne_eq, hm, not_false_eq_true, ite_true, if_true]

/-- On a V2 session `comm_handler` leaves the whole session state unchanged,
whatever the wire outcomes. -/
theorem comm_handler_v2_state (da sn : Nat) (env : WireEnv)
    (req_type : RequestType) (hashval array_idx : Nat) :
    (comm_handler ⟨da, .V2, sn⟩ env req_type hashval array_idx).state =
      ⟨da, .V2, sn⟩ := by
  rcases env with ⟨w, p2, r2, p3, r3⟩
  rcases w with e | u
  · rfl
  · rcases p2 with e | resp
    · rfl
    · rcases r2 with e | rc
      · rfl
      · rcases rc with _ | nm
        · rfl
        · rfl

/-! ## Claim theorems -/

/-- C1: the correlation sequencer starts at 0x17 on a fresh session; each call
returns the current counter and advances it by one; after returning 0xFF the
next call returns 0x11; on every reachable state the returned value exceeds
0x10 (so nothing below 0x10, and 0x10 itself, is ever returned after
initialization). -/
theorem srlno_sequencer_spec (a : Nat) (v : SmdpVersion) (s : ApiState)
    (h : Reachable a v s) :
    (increment_srlno (ApiState.initial a v)).1 = 0x17 ∧
    (increment_srlno s).1 = s.srlno ∧
    (s.srlno ≠ 255 → (increment_srlno s).2.srlno = s.srlno + 1) ∧
    ((increment_srlno s).1 = 0xFF →
      (increment_srlno (increment_srlno s).2).1 = 0x11) ∧
    0x10 < (increment_srlno s).1 := by
  have hb := reachable_srlno_bounds h
  refine ⟨rfl, increment_srlno_fst s, ?_, ?_, ?_⟩
  · intro hne
    unfold increment_srlno
    rw [if_neg hne]
  · intro h255
    rw [increment_srlno_fst] at h255
    rw [increment_srlno_fst]
    unfold increment_srlno
    rw [if_pos h255]
  · rw [increment_srlno_fst]
    omega

/-- Witness for C1 at the freshly constructed session. -/
theorem srlno_sequencer_spec_witness :
    (increment_srlno (ApiState.initial 0x10 .V3Plus)).1 = 0x17 ∧
    0x10 < (increment_srlno (ApiState.initial 0x10 .V3Plus)).1 := by
  have h := srlno_sequencer_spec 0x10 .V3Plus (ApiState.initial 0x10 .V3Plus)
    Reachable.init
  exact ⟨h.1, h.2.2.2.2⟩

/-- C2: `extract_data` succeeds exactly on 8-byte payloads, returning bytes
4..7 as a big-endian u32; every other length yields the `InvalidFormat`
error. -/
theorem extract_data_spec (p : CPacketSmdp) :
    ((∃ v, p.extract_data = .ok v) ↔ p.data.length = 8) ∧
    (p.data.length = 8 →
      p.extract_data =
        .ok (u32FromBeBytes (p.data.getD 4 0) (p.data.getD 5 0)
          (p.data.getD 6 0) (p.data.getD 7 0))) ∧
    (p.data.length ≠ 8 →
      p.extract_data =
        .error (.InvalidFormat
          "Response is malformed or is not a response packet.")) := by
  have herr : p.data.length ≠ 8 →
      p.extract_data =
        .error (.InvalidFormat
          "Response is malformed or is not a response packet.") := by
    intro h
    unfold CPacketSmdp.extract_data
    rw [if_neg h]
  refine ⟨⟨?_, ?_⟩, fun h => extract_data_of_length_eight p h, herr⟩
  · rintro ⟨v, hv⟩
    by_contra h
    rw [herr h] at hv
    exact Except.noConfusion hv
  · intro h
    exact ⟨_, extract_data_of_length_eight p h⟩

/-- Witness for C2 at an 8-byte payload and a 3-byte payload. -/
theorem extract_data_spec_witness :
    (CPacketSmdp.mk 0x10 [0x63, 0x5F, 0x95, 0x00, 0x00, 0x00, 0x00, 0x01]
      none).extract_data = .ok 1 ∧
    (CPacketSmdp.mk 0x10 [1, 2, 3] none).extract_data =
      .error (.InvalidFormat
        "Response is malformed or is not a response packet.") := by
  constructor
  · exact ((extract_data_spec
      (CPacketSmdp.mk 0x10 [0x63, 0x5F, 0x95, 0x00, 0x00, 0x00, 0x00, 0x01]
        none)).2.1 (by simp)).trans (by norm_num [u32FromBeBytes])
  · exact (extract_data_spec (CPacketSmdp.mk 0x10 [1, 2, 3] none)).2.2 (by simp)

/-- C3: the dictionary request codec builds `[0x63, hashHi, hashLo, subIndex]`
for a read and `[0x61, hashHi, hashLo, subIndex]` followed by the four
big-endian payload bytes for a write, for every address, 16-bit hash,
sub-index and 32-bit write payload. -/
theorem cpacket_new_payload (addr : Nat) (srlno : Option Nat)
    (hashval array_idx d : Nat) (hh : hashval < 65536) (hd : d < 4294967296) :
    (CPacketSmdp.new addr srlno .Read hashval array_idx).data =
      [0x63, hashval / 256, hashval % 256, array_idx] ∧
    (CPacketSmdp.new addr srlno (.Write d) hashval array_idx).data =
      [0x61, hashval / 256, hashval % 256, array_idx,
        d / 16777216, d / 65536 % 256, d / 256 % 256, d % 256] := by
  have h1 : hashval / 256 % 256 = hashval / 256 := by omega
  have h2 : d / 16777216 % 256 = d / 16777216 := by omega
  simp [CPacketSmdp.new, u16ToBeBytes, u32ToBeBytes, h1, h2]

/-- Witness for C3 at the start-compressor register write. -/
theorem cpacket_new_payload_witness :
    (CPacketSmdp.new 0x10 none .Read 0xD501 0x00).data =
      [0x63, 0xD501 / 256, 0xD501 % 256, 0x00] ∧
    (CPacketSmdp.new 0x10 none (.Write 1) 0xD501 0x00).data =
      [0x61, 0xD501 / 256, 0xD501 % 256, 0x00,
        1 / 16777216, 1 / 65536 % 256, 1 / 256 % 256, 1 % 256] :=
  cpacket_new_payload 0x10 none 0xD501 0x00 1 (by norm_num) (by norm_num)

/-- C7: converting a dictionary request to the Unkeyed (V2) frame shape is
total, and converting back yields the original address and payload with the
correlation field absent, whatever the input correlation was. -/
theorem v2_frame_roundtrip (c : CPacketSmdp) :
    ofSmdpV2 (toSmdpV2 c) = ⟨c.addr, c.data, none⟩ := rfl

/-- C8: converting to the Keyed (V3) frame shape fails with a format error
exactly when the correlation is absent; with a correlation present, the
conversion succeeds and converting back restores address, payload and
correlation exactly. -/
theorem v3_frame_roundtrip (c : CPacketSmdp) :
    (c.srlno = none →
      toSmdpV3 c = .error (.InvalidFormat "Packet has no serial number.")) ∧
    (∀ n, c.srlno = some n →
      toSmdpV3 c = .ok ⟨c.addr, SMDP_OPCODE, n, c.data⟩ ∧
      ofSmdpV3 ⟨c.addr, SMDP_OPCODE, n, c.data⟩ = c) := by
  obtain ⟨a, dt, sr⟩ := c
  cases sr with
  | none => simp [toSmdpV3]
  | some n => simp [toSmdpV3, ofSmdpV3]

/-- Witness for C8 at a request without and a request with a correlation. -/
theorem v3_frame_roundtrip_witness :
    toSmdpV3 ⟨0x10, [1, 2, 3], none⟩ =
      .error (.InvalidFormat "Packet has no serial number.") ∧
    toSmdpV3 ⟨0x10, [1, 2, 3], some 0x42⟩ =
      .ok ⟨0x10, SMDP_OPCODE, 0x42, [1, 2, 3]⟩ ∧
    ofSmdpV3 ⟨0x10, SMDP_OPCODE, 0x42, [1, 2, 3]⟩ = ⟨0x10, [1, 2, 3], some 0x42⟩ :=
  ⟨(v3_frame_roundtrip ⟨0x10, [1, 2, 3], none⟩).1 rfl,
    (v3_frame_roundtrip ⟨0x10, [1, 2, 3], some 0x42⟩).2 0x42 rfl⟩

/-- Counterexample to C4 as stated: a V3Plus response carrying non-OK status
"SYNTAX_ERR" but also a mismatched correlation (0x05 against the request's
0x17) fails with the correlation error, which does not name the observed
status. -/
theorem status_error_spec_cex :
    (comm_handler ⟨0x10, .V3Plus, 0x17⟩
        ⟨.ok (), .error (.Io "unused"), .error "unused",
          .ok ⟨0x10, 0x89, 0x05, [0, 0, 0, 0, 0, 0, 0, 1]⟩,
          .ok (.NotOk "SYNTAX_ERR")⟩
        .Read 0x2B0D 0x00).result =
      .error (.InvalidFormat "SRLNO mismatch") ∧
    (comm_handler ⟨0x10, .V3Plus, 0x17⟩
        ⟨.ok (), .error (.Io "unused"), .error "unused",
          .ok ⟨0x10, 0x89, 0x05, [0, 0, 0, 0, 0, 0, 0, 1]⟩,
          .ok (.NotOk "SYNTAX_ERR")⟩
        .Read 0x2B0D 0x00).result ≠
      .error (.InvalidFormat ("RSP not OK: " ++ "SYNTAX_ERR")) := by
  decide

/-- C4 (amended): a transaction whose response decodes to a non-OK status
never hands the caller decoded data: on V2, and on V3Plus with a matching
correlation, it fails with the protocol error naming the observed status; on
V3Plus with a mismatched correlation it still fails, but with the
correlation-mismatch error. -/
theorem status_error_spec (s : ApiState) (env : WireEnv)
    (req_type : RequestType) (hashval array_idx : Nat) (name : String) :
    (∀ resp, s.version = .V2 → env.writeRes = .ok () → env.pollV2 = .ok resp →
      env.rspV2 = .ok (.NotOk name) →
      (comm_handler s env req_type hashval array_idx).result =
        .error (.InvalidFormat ("RSP not OK: " ++ name))) ∧
    (∀ resp, s.version = .V3Plus → env.writeRes = .ok () →
      env.pollV3 = .ok resp → env.rspV3 = .ok (.NotOk name) →
      resp.srlno = s.srlno →
      (comm_handler s env req_type hashval array_idx).result =
        .error (.InvalidFormat ("RSP not OK: " ++ name))) ∧
    (∀ resp, s.version = .V3Plus → env.writeRes = .ok () →
      env.pollV3 = .ok resp → env.rspV3 = .ok (.NotOk name) →
      ∃ e, (comm_handler s env req_type hashval array_idx).result =
        .error e) := by
  obtain ⟨da, ver, sn⟩ := s
  refine ⟨?_, ?_, ?_⟩
  · intro resp hv hw hp hr
    replace hv : ver = .V2 := hv
    subst hv
    rw [comm_handler_v2_result da sn env req_type hashval array_idx resp hw hp,
      hr]
  · intro resp hv hw hp hr hm
    replace hv : ver = .V3Plus := hv
    subst hv
    replace hm : resp.srlno = sn := hm
    rw [comm_handler_v3_result da sn env req_type hashval array_idx resp hw hp,
      if_neg (fun h => h hm), hr]
  · intro resp hv hw hp hr
    replace hv : ver = .V3Plus := hv
    subst hv
    rw [comm_handler_v3_result da sn env req_type hashval array_idx resp hw hp,
      hr]
    by_cases hm : resp.srlno = sn
    · rw [if_neg (fun h => h hm)]
      exact ⟨_, rfl⟩
    · rw [if_pos hm]
      exact ⟨_, rfl⟩

/-- Witness for C4 (amended) at a V2 transaction with status "SYNTAX_ERR". -/
theorem status_error_spec_witness :
    (comm_handler ⟨0x10, .V2, 0x17⟩
        ⟨.ok (), .ok ⟨0x10, 0x89, [0, 0, 0, 0, 0, 0, 0, 1]⟩,
          .ok (.NotOk "SYNTAX_ERR"), .error (.Io "unused"), .error "unused"⟩
        .Read 0x2B0D 0x00).result =
      .error (.InvalidFormat ("RSP not OK: " ++ "SYNTAX_ERR")) :=
  (status_error_spec ⟨0x10, .V2, 0x17⟩ _ .Read 0x2B0D 0x00 "SYNTAX_ERR").1
    ⟨0x10, 0x89, [0, 0, 0, 0, 0, 0, 0, 1]⟩ rfl rfl rfl rfl

/-- C5: a keyed-version transaction whose response correlation differs from
the request's fails with the correlation-mismatch protocol error; no payload
value is returned, well-formed or not. -/
theorem srlno_mismatch_spec (s : ApiState) (env : WireEnv)
    (req_type : RequestType) (hashval array_idx : Nat) (resp : SmdpPacketV3)
    (hv : s.version = .V3Plus) (hw : env.writeRes = .ok ())
    (hp : env.pollV3 = .ok resp) (hm : resp.srlno ≠ s.srlno) :
    (comm_handler s env req_type hashval array_idx).result =
      .error (.InvalidFormat "SRLNO mismatch") := by
  obtain ⟨da, ver, sn⟩ := s
  replace hv : ver = .V3Plus := hv
  subst hv
  replace hm : resp.srlno ≠ sn := hm
  rw [comm_handler_v3_result da sn env req_type hashval array_idx resp hw hp,
    if_pos hm]

/-- Witness for C5 at a mismatched response with a well-formed 8-byte
payload and OK status. -/
theorem srlno_mismatch_spec_witness :
    (comm_handler ⟨0x10, .V3Plus, 0x17⟩
        ⟨.ok (), .error (.Io "unused"), .error "unused",
          .ok ⟨0x10, 0x89, 0x05, [0x63, 0x5F, 0x95, 0x00, 0, 0, 0, 1]⟩,
          .ok .Ok⟩
        .Read 0x5F95 0x00).result =
      .error (.InvalidFormat "SRLNO mismatch") :=
  srlno_mismatch_spec ⟨0x10, .V3Plus, 0x17⟩ _ .Read 0x5F95 0x00
    ⟨0x10, 0x89, 0x05, [0x63, 0x5F, 0x95, 0x00, 0, 0, 0, 1]⟩ rfl rfl rfl
    (by decide)

/-- Counterexample to C6 as stated: a V3Plus response with both non-OK status
"INV_CMD" and mismatched correlation (0x31 against the request's 0x30) yields
the correlation-mismatch error, not the status error claimed to win. -/
theorem validation_order_cex :
    (comm_handler ⟨0x21, .V3Plus, 0x30⟩
        ⟨.ok (), .error (.Io "unused"), .error "unused",
          .ok ⟨0x21, 0x89, 0x31, [0, 0, 0, 0, 0, 0, 0, 2]⟩,
          .ok (.NotOk "INV_CMD")⟩
        .Read 0x801A 0x00).result =
      .error (.InvalidFormat "SRLNO mismatch") ∧
    (comm_handler ⟨0x21, .V3Plus, 0x30⟩
        ⟨.ok (), .error (.Io "unused"), .error "unused",
          .ok ⟨0x21, 0x89, 0x31, [0, 0, 0, 0, 0, 0, 0, 2]⟩,
          .ok (.NotOk "INV_CMD")⟩
        .Read 0x801A 0x00).result ≠
      .error (.InvalidFormat ("RSP not OK: " ++ "INV_CMD")) := by
  decide

/-- C6 (amended): in a keyed-version transaction the engine validates the
correlation before the status: when the response both carries a non-OK status
and a mismatched correlation, the resulting error is the
correlation-mismatch error. -/
theorem validation_order_spec (s : ApiState) (env : WireEnv)
    (req_type : RequestType) (hashval array_idx : Nat) (name : String)
    (resp : SmdpPacketV3) (hv : s.version = .V3Plus)
    (hw : env.writeRes = .ok ()) (hp : env.pollV3 = .ok resp)
    (_hr : env.rspV3 = .ok (.NotOk name)) (hm : resp.srlno ≠ s.srlno) :
    (comm_handler s env req_type hashval array_idx).result =
      .error (.InvalidFormat "SRLNO mismatch") := by
  obtain ⟨da, ver, sn⟩ := s
  replace hv : ver = .V3Plus := hv
  subst hv
  replace hm : resp.srlno ≠ sn := hm
  rw [comm_handler_v3_result da sn env req_type hashval array_idx resp hw hp,
    if_pos hm]

/-- Witness for C6 (amended) at a concrete both-failing response. -/
theorem validation_order_spec_witness :
    (comm_handler ⟨0x21, .V3Plus, 0x30⟩
        ⟨.ok (), .error (.Io "unused"), .error "unused",
          .ok ⟨0x21, 0x89, 0x31, [0, 0, 0, 0, 0, 0, 0, 2]⟩,
          .ok (.NotOk "DOWN_ERR")⟩
        .Read 0x801A 0x01).result =
      .error (.InvalidFormat "SRLNO mismatch") :=
  validation_order_spec ⟨0x21, .V3Plus, 0x30⟩ _ .Read 0x801A 0x01 "DOWN_ERR"
    ⟨0x21, 0x89, 0x31, [0, 0, 0, 0, 0, 0, 0, 2]⟩ rfl rfl rfl rfl (by decide)

/-- C10: a transaction on a V2 session never modifies the correlation
counter — the session state is unchanged whatever the outcome — and the
frame handed to the transport is the Unkeyed shape built from a request
whose correlation field is absent. -/
theorem v2_no_correlation_spec (s : ApiState) (env : WireEnv)
    (req_type : RequestType) (hashval array_idx : Nat)
    (hv : s.version = .V2) :
    (comm_handler s env req_type hashval array_idx).state = s ∧
    (comm_handler s env req_type hashval array_idx).sent =
      some (.v2 (toSmdpV2
        (CPacketSmdp.new s.dev_addr none req_type hashval array_idx))) := by
  obtain ⟨da, ver, sn⟩ := s
  replace hv : ver = .V2 := hv
  subst hv
  refine ⟨comm_handler_v2_state da sn env req_type hashval array_idx, ?_⟩
  rcases env with ⟨w, p2, r2, p3, r3⟩
  rcases w with e | u
  · rfl
  · rcases p2 with e | resp
    · rfl
    · rcases r2 with e | rc
      · rfl
      · rcases rc with _ | nm
        · rfl
        · rfl

/-- Witness for C10 at a successful V2 read. -/
theorem v2_no_correlation_spec_witness :
    (comm_handler ⟨0x10, .V2, 0x17⟩
        ⟨.ok (), .ok ⟨0x10, 0x89, [0x63, 0x5F, 0x95, 0x00, 0, 0, 0, 1]⟩,
          .ok .Ok, .error (.Io "unused"), .error "unused"⟩
        .Read 0x5F95 0x00).state = ⟨0x10, .V2, 0x17⟩ ∧
    (comm_handler ⟨0x10, .V2, 0x17⟩
        ⟨.ok (), .ok ⟨0x10, 0x89, [0x63, 0x5F, 0x95, 0x00, 0, 0, 0, 1]⟩,
          .ok .Ok, .error (.Io "unused"), .error "unused"⟩
        .Read 0x5F95 0x00).sent =
      some (.v2 (toSmdpV2 (CPacketSmdp.new 0x10 none .Read 0x5F95 0x00))) :=
  v2_no_correlation_spec ⟨0x10, .V2, 0x17⟩ _ .Read 0x5F95 0x00 rfl

/-- `comp_on` hands the transport the same frame its underlying read does. -/
theorem comp_on_sent (s : ApiState) (env : WireEnv) :
    (comp_on s env).sent = (comm_handler s env .Read 0x5F95 0x00).sent := by
  rcases h : (comm_handler s env .Read 0x5F95 0x00).result with e | v
  · simp [comp_on, h]
  · rcases v with _ | d <;> simp [comp_on, h]

/-- `comp_on` reports true exactly when its read decodes to the value 1. -/
theorem comp_on_ok_true_iff (s : ApiState) (env : WireEnv) :
    (comp_on s env).result = .ok true ↔
      (comm_handler s env .Read 0x5F95 0x00).result = .ok (some 1) := by
  rcases h : (comm_handler s env .Read 0x5F95 0x00).result with e | v
  · simp [comp_on, h]
  · rcases v with _ | d
    · simp [comp_on, h]
    · simp [comp_on, h]

/-- C9: `start_compressor` first sends the write frame for register 0xD501
sub-index 0x00 with payload 0x0001 to the session's device; if that
transaction fails, the error propagates and nothing else happens; otherwise
it sleeps one second, performs exactly one confirmation read of register
0x5F95 sub-index 0x00, reports `true` exactly when that read decodes to 1,
and returns the confirmation read's outcome unchanged (so its errors
propagate with no retry). -/
theorem start_compressor_spec (s : ApiState) (env1 env2 : WireEnv) :
    (∃ f, (comm_handler s env1 (.Write 0x0001) 0xD501 0x00).sent = some f ∧
      f.dataOf = [0x61, 0xD5, 0x01, 0x00, 0x00, 0x00, 0x00, 0x01] ∧
      f.addrOf = s.dev_addr) ∧
    (∀ e, (comm_handler s env1 (.Write 0x0001) 0xD501 0x00).result =
        .error e →
      (start_compressor s env1 env2).result = .error e ∧
      (start_compressor s env1 env2).events =
        [.sentFrame (comm_handler s env1 (.Write 0x0001) 0xD501 0x00).sent]) ∧
    (∀ v, (comm_handler s env1 (.Write 0x0001) 0xD501 0x00).result = .ok v →
      (start_compressor s env1 env2).events =
        [.sentFrame (comm_handler s env1 (.Write 0x0001) 0xD501 0x00).sent,
          .sleepSecs 1,
          .sentFrame (comm_handler
            (comm_handler s env1 (.Write 0x0001) 0xD501 0x00).state env2
            .Read 0x5F95 0x00).sent] ∧
      (∃ f, (comm_handler
          (comm_handler s env1 (.Write 0x0001) 0xD501 0x00).state env2
          .Read 0x5F95 0x00).sent = some f ∧
        f.dataOf = [0x63, 0x5F, 0x95, 0x00]) ∧
      (start_compressor s env1 env2).result =
        (comp_on (comm_handler s env1 (.Write 0x0001) 0xD501 0x00).state
          env2).result ∧
      ((start_compressor s env1 env2).result = .ok true ↔
        (comm_handler (comm_handler s env1 (.Write 0x0001) 0xD501 0x00).state
          env2 .Read 0x5F95 0x00).result = .ok (some 1))) := by
  refine ⟨?_, ?_, ?_⟩
  · obtain ⟨f, hf, hd, ha⟩ := comm_handler_sent s env1 (.Write 0x0001) 0xD501 0x00
    refine ⟨f, hf, ?_, ha⟩
    rw [hd]
    rfl
  · intro e he
    constructor <;> simp [start_compressor, he]
  · intro v hv
    refine ⟨?_, ?_, ?_, ?_⟩
    · simp [start_compressor, hv, comp_on_sent]
    · obtain ⟨f, hf, hd, _⟩ := comm_handler_sent
        (comm_handler s env1 (.Write 0x0001) 0xD501 0x00).state env2
        .Read 0x5F95 0x00
      refine ⟨f, hf, ?_⟩
      rw [hd]
      rfl
    · simp [start_compressor, hv]
    · rw [show (start_compressor s env1 env2).result =
          (comp_on (comm_handler s env1 (.Write 0x0001) 0xD501 0x00).state
            env2).result from by simp [start_compressor, hv]]
      exact comp_on_ok_true_iff _ env2

/-- Witness for C9: a fully successful start on a V2 session reports true. -/
theorem start_compressor_spec_witness :
    (start_compressor ⟨0x10, .V2, 0x17⟩
        ⟨.ok (), .ok ⟨0x10, 0x89, [0, 0, 0, 0, 0, 0, 0, 0]⟩, .ok .Ok,
          .error (.Io "unused"), .error "unused"⟩
        ⟨.ok (), .ok ⟨0x10, 0x89, [0x63, 0x5F, 0x95, 0x00, 0, 0, 0, 1]⟩,
          .ok .Ok, .error (.Io "unused"), .error "unused"⟩).result =
      .ok true := by
  have h := (start_compressor_spec ⟨0x10, .V2, 0x17⟩
      ⟨.ok (), .ok ⟨0x10, 0x89, [0, 0, 0, 0, 0, 0, 0, 0]⟩, .ok .Ok,
        .error (.Io "unused"), .error "unused"⟩
      ⟨.ok (), .ok ⟨0x10, 0x89, [0x63, 0x5F, 0x95, 0x00, 0, 0, 0, 1]⟩,
        .ok .Ok, .error (.Io "unused"), .error "unused"⟩).2.2 none (by decide)
  exact h.2.2.2.mpr (by decide)

end Cryomech
